import Mathlib

/-!
Shallow embedding of the order-reconciliation core (functions/index.js):
the Checkout Initiator (`createCheckoutSession`) and the Completion
Reconciler (`stripeWebhook`) over a document store holding products and
orders.  JavaScript numbers are modelled as exact rationals; `Math.round`
is modelled by its ECMAScript definition (floor of x + 1/2), and the
source's `round2` epsilon nudge uses `Number.EPSILON = 2 ^ (-52)` exactly.
Firestore is modelled as association lists keyed by document id; a
`WriteBatch` commit is a single atomic store transition, mirroring the
store's all-or-nothing batch primitive.  External collaborators (the
processor's session creation, server timestamps, generated document ids)
enter as explicit parameters; signature verification of a webhook payload
is a boolean input standing for `stripe.webhooks.constructEvent`
succeeding.
-/

/-- `Number.EPSILON`, the nudge added by the source's `round2`. -/
def jsEpsilon : ℚ := 1 / 2 ^ 52

/-- ECMAScript `Math.round`: round to nearest integer, half toward plus
infinity, i.e. the floor of `x + 1/2`.  Defined through `Rat.floor` so
that it evaluates by kernel reduction; `jsRound_eq_floor` restates it
with `Int.floor`. -/
def jsRound (x : ℚ) : ℤ := (x + 1 / 2).floor

/-- `jsRound` is the integer floor of `x + 1/2`. -/
theorem jsRound_eq_floor (x : ℚ) : jsRound x = ⌊x + 1 / 2⌋ := by
  rw [jsRound, Rat.floor_def, Rat.floor_def']

/-- Source line 14: `const round2 = n => Math.round((n + Number.EPSILON) * 100) / 100`. -/
def round2 (n : ℚ) : ℚ := (jsRound ((n + jsEpsilon) * 100) : ℚ) / 100

/-- A product document in `/products` (inventory store of record).
`stock` is `none` when the document has no numeric `stock` field
(untracked inventory); `price` is the live unit price in decimal
currency units. -/
structure Product where
  name : String
  price : ℚ
  stock : Option ℤ
  image : Option String
  deriving DecidableEq

/-- A line item snapshot persisted inside an order document
(`{productId, name, qty, price}`). -/
structure OrderItem where
  productId : String
  name : String
  qty : ℤ
  price : ℚ
  deriving DecidableEq

/-- Order status: the source only ever writes `'pending'` and `'paid'`. -/
inductive OrderStatus where
  | pending
  | paid
  deriving DecidableEq

/-- An order document in `/orders`.  Server timestamps are abstracted to
natural numbers (`none` = field not set). -/
structure Order where
  userUID : String
  userEmail : String
  userName : String
  items : List OrderItem
  subtotal : ℚ
  tps : ℚ
  tvq : ℚ
  taxes : ℚ
  total : ℚ
  status : OrderStatus
  stripeSessionId : Option String
  stripePaymentIntentId : Option String
  createdAt : Option ℕ
  paidAt : Option ℕ
  deriving DecidableEq

/-- The document store: `/products` and `/orders` as association lists
keyed by document id. -/
structure Store where
  products : List (String × Product)
  orders : List (String × Order)
  deriving DecidableEq

/-- Document lookup by id (first binding wins). -/
def lookup (k : String) : List (String × α) → Option α
  | [] => none
  | (k', v) :: rest => if k' = k then some v else lookup k rest

/-- Update the (first) binding for `k` in place, leaving the rest alone:
models a Firestore document update. -/
def updateAssoc (k : String) (f : α → α) : List (String × α) → List (String × α)
  | [] => []
  | (k', v) :: rest =>
      if k' = k then (k', f v) :: rest else (k', v) :: updateAssoc k f rest

/-- A cart entry as submitted by the client: `{id, quantity}` plus a
client-submitted price field that the source never reads (kept to state
that it cannot influence the outcome).  Quantities are modelled as
integers. -/
structure CartEntry where
  id : String
  quantity : ℤ
  price : ℚ
  deriving DecidableEq

/-- The `user` object of the request body; `name` is optional. -/
structure UserInfo where
  uid : String
  email : String
  name : Option String
  deriving DecidableEq

/-- A checkout request: `cart = none` models a body whose `cart` fails
`Array.isArray`; `user = none` a missing `user` object. -/
structure CheckoutRequest where
  method : String
  cart : Option (List CartEntry)
  user : Option UserInfo
  deriving DecidableEq

/-- A validated line (source lines 48-54): id, live name, unit price in
integer cents, clamped quantity, optional image. -/
structure Item where
  id : String
  name : String
  unit_amount : ℤ
  quantity : ℤ
  image : Option String
  deriving DecidableEq

/-- Source line 47: `Math.round(parseFloat(p.price) * 100)`, the live
unit price in minor units. -/
def unitCents (p : Product) : ℤ := jsRound (p.price * 100)

/-- Source lines 48-54: the item pushed for a resolved cart entry, with
quantity clamped by `Math.max(1, parseInt(i.quantity, 10))`. -/
def mkItem (e : CartEntry) (p : Product) : Item :=
  { id := e.id
    name := p.name
    unit_amount := unitCents p
    quantity := max 1 e.quantity
    image := p.image }

/-- Source lines 37-55: the revalidation loop.  An entry with a falsy id
or falsy (zero) quantity is skipped before the product lookup; an entry
whose id does not resolve is skipped; a resolved product with a numeric
stock below the clamped quantity aborts the whole loop with the
product's name (`Stock insuffisant`); otherwise the entry contributes an
item. -/
def buildItems (st : Store) : List CartEntry → Except String (List Item)
  | [] => .ok []
  | e :: rest =>
      if e.id = "" ∨ e.quantity = 0 then buildItems st rest
      else
        match lookup e.id st.products with
        | none => buildItems st rest
        | some p =>
            match p.stock with
            | some s =>
                if s < max 1 e.quantity then .error p.name
                else (buildItems st rest).map (mkItem e p :: ·)
            | none => (buildItems st rest).map (mkItem e p :: ·)

/-- Source line 58: subtotal of the validated items,
`round2(items.reduce((s, it) => s + (it.unit_amount / 100) * it.quantity, 0))`. -/
def itemsSubtotal (items : List Item) : ℚ :=
  round2 (items.foldl (fun s it => s + ((it.unit_amount : ℚ) / 100) * (it.quantity : ℚ)) 0)

/-- JavaScript `a || b` for an optional string (missing or empty falls
back). -/
def jsOrString (a : Option String) (b : String) : String :=
  match a with
  | some s => if s = "" then b else s
  | none => b

/-- Source lines 60-70: the `pending` order document created before any
processor interaction. -/
def pendingOrder (u : UserInfo) (items : List Item) (now : ℕ) : Order :=
  { userUID := u.uid
    userEmail := u.email
    userName := jsOrString u.name u.email
    items := items.map fun it =>
      { productId := it.id
        name := it.name
        qty := it.quantity
        price := (it.unit_amount : ℚ) / 100 }
    subtotal := itemsSubtotal items
    tps := 0
    tvq := 0
    taxes := 0
    total := 0
    status := .pending
    stripeSessionId := none
    stripePaymentIntentId := none
    createdAt := some now
    paidAt := none }

/-- The Initiator's possible HTTP responses. -/
inductive CheckoutResponse where
  | methodNotAllowed
  | invalidPayload
  | stockError (productName : String)
  | emptyCart
  | ok (url : String)
  deriving DecidableEq

/-- Observable side effects of one Initiator invocation, in execution
order: order-document creation, the processor session-creation call, the
order-document update. -/
inductive Effect where
  | createOrder (orderId : String)
  | stripeSessionCreate (sessionId : String)
  | updateOrder (orderId : String)
  deriving DecidableEq

/-- Result of one Initiator invocation: the response, the store after the
invocation, and the trace of side effects in the order they happened. -/
structure CheckoutResult where
  response : CheckoutResponse
  store : Store
  effects : List Effect
  deriving DecidableEq

/-- Source lines 22-111, `exports.createCheckoutSession`.  External
inputs that the platform or the processor supplies are parameters: the
generated order document id `newOrderId`, the processor session's id and
redirect url, and the server clock `now`.  The success path creates the
`pending` order, calls the processor, then updates the order with the
session id - in that order. -/
def createCheckoutSession (req : CheckoutRequest) (newOrderId sessionId sessionUrl : String)
    (now : ℕ) (st : Store) : CheckoutResult :=
  if req.method ≠ "POST" then ⟨.methodNotAllowed, st, []⟩
  else
    match req.cart, req.user with
    | some cart, some u =>
        if u.uid = "" ∨ u.email = "" then ⟨.invalidPayload, st, []⟩
        else
          match buildItems st cart with
          | .error nm => ⟨.stockError nm, st, []⟩
          | .ok items =>
              if items = [] then ⟨.emptyCart, st, []⟩
              else
                ⟨.ok sessionUrl,
                 ⟨st.products,
                  (newOrderId,
                   { pendingOrder u items now with stripeSessionId := some sessionId })
                    :: st.orders⟩,
                 [.createOrder newOrderId, .stripeSessionCreate sessionId,
                  .updateOrder newOrderId]⟩
    | _, _ => ⟨.invalidPayload, st, []⟩

/-- The `checkout.session.completed` payload fields the webhook reads.
`metadata_firebaseOrderId = none` models a missing metadata key; amounts
are in minor units, `none` when absent from the payload. -/
structure SessionData where
  metadata_firebaseOrderId : Option String
  amount_total : Option ℤ
  amount_subtotal : Option ℤ
  payment_intent : Option String
  deriving DecidableEq

/-- A processor event: its `type` string and the session object. -/
structure StripeEvent where
  type : String
  session : SessionData
  deriving DecidableEq

/-- Source lines 150-154 skip guard: `if (!it.productId || !it.qty) continue`. -/
def activeItems (items : List OrderItem) : List OrderItem :=
  items.filter fun it => decide (it.productId ≠ "" ∧ it.qty ≠ 0)

/-- `FieldValue.increment(-qty)` on the `stock` field: decrements a
numeric stock, or sets the field to `-qty` when it was absent. -/
def decStock (q : ℤ) (p : Product) : Product :=
  { p with stock := some (p.stock.getD 0 - q) }

/-- The per-line stock updates queued into the batch, applied in order. -/
def applyDecrements : List OrderItem → List (String × Product) → List (String × Product)
  | [], ps => ps
  | it :: rest, ps => applyDecrements rest (updateAssoc it.productId (decStock it.qty) ps)

/-- Source lines 156-163: the order update queued into the batch.
`amount_total || 0` and `amount_subtotal || 0` default missing amounts to
zero before dividing by 100. -/
def reconciledOrder (s : SessionData) (now : ℕ) (o : Order) : Order :=
  { o with
    status := .paid
    taxes := round2 ((s.amount_total.getD 0 : ℚ) / 100 - (s.amount_subtotal.getD 0 : ℚ) / 100)
    total := (s.amount_total.getD 0 : ℚ) / 100
    tps := 0
    tvq := 0
    stripePaymentIntentId := s.payment_intent
    paidAt := some now }

/-- `batch.commit()`: the stock decrements and the order update land as
one atomic store transition. -/
def commitBatch (oid : String) (o : Order) (s : SessionData) (now : ℕ) (st : Store) : Store :=
  ⟨applyDecrements (activeItems o.items) st.products,
   updateAssoc oid (reconciledOrder s now) st.orders⟩

/-- Source lines 119-174, `exports.stripeWebhook`.  `sigOk` is whether
`stripe.webhooks.constructEvent` verifies the payload signature against
the configured secret; on failure the handler answers 400 without
reading any payload field.  A wrong event type, a missing/empty metadata
order id, or a non-existent order are acknowledged with 200 and no state
change.  A matched order commits one atomic batch; a batch `update` on a
product document that does not exist makes `batch.commit()` throw, which
the handler surfaces as 500 with no state change. -/
def stripeWebhook (sigOk : Bool) (ev : StripeEvent) (now : ℕ) (st : Store) : ℕ × Store :=
  if sigOk = false then (400, st)
  else if ev.type ≠ "checkout.session.completed" then (200, st)
  else
    match ev.session.metadata_firebaseOrderId with
    | none => (200, st)
    | some orderId =>
        if orderId = "" then (200, st)
        else
          match lookup orderId st.orders with
          | none => (200, st)
          | some order =>
              if (activeItems order.items).all
                  (fun it => (lookup it.productId st.products).isSome) then
                (200, commitBatch orderId order ev.session now st)
              else (500, st)

/-- Whether a cart entry survives the revalidation loop: truthy id and
quantity, and an id that resolves in the product store. -/
def resolvedEntry (st : Store) (e : CartEntry) : Bool :=
  decide (e.id ≠ "" ∧ e.quantity ≠ 0) && (lookup e.id st.products).isSome

/-- The item a retained entry contributes (junk defaults when the id does
not resolve; never reached for retained entries). -/
def entryItem (st : Store) (e : CartEntry) : Item :=
  match lookup e.id st.products with
  | some p => mkItem e p
  | none => { id := e.id, name := "", unit_amount := 0, quantity := max 1 e.quantity, image := none }

/-- The live per-line amount of a cart entry: unit price converted to
integer cents, divided by 100, times the clamped quantity. -/
def liveLineAmount (st : Store) (e : CartEntry) : ℚ :=
  match lookup e.id st.products with
  | some p => ((unitCents p : ℚ) / 100) * ((max 1 e.quantity : ℤ) : ℚ)
  | none => 0

/-- Rewrite every client-submitted price field of a cart. -/
def withClientPrices (f : CartEntry → ℚ) (cart : List CartEntry) : List CartEntry :=
  cart.map fun e => { e with price := f e }

/-- Rewrite every client-submitted price field of a request. -/
def withReqPrices (f : CartEntry → ℚ) (req : CheckoutRequest) : CheckoutRequest :=
  { req with cart := req.cart.map (withClientPrices f) }

/-! ### Concrete data for the spec's running example and demonstrations -/

/-- The spec's example product: price 9.99, stock 5. -/
def sampleProduct : Product := ⟨"Widget", 999 / 100, some 5, none⟩

/-- A store holding only the example product at id `p1`. -/
def sampleStore : Store := ⟨[("p1", sampleProduct)], []⟩

/-- An example buyer. -/
def sampleUser : UserInfo := ⟨"u1", "u@example.com", none⟩

/-- The spec's example cart: `[{id: "p1", quantity: 2}]`. -/
def sampleCart : List CartEntry := [⟨"p1", 2, 999 / 100⟩]

/-- The spec's example checkout request. -/
def sampleReq : CheckoutRequest := ⟨"POST", some sampleCart, some sampleUser⟩

/-- The Initiator run on the spec's example. -/
def sampleCheckout : CheckoutResult :=
  createCheckoutSession sampleReq "o1" "s1" "https://pay.example" 0 sampleStore

/-- The validated items the example checkout keeps. -/
def sampleItems : List Item := [⟨"p1", "Widget", 999, 2, none⟩]

/-- The pending order the example checkout persists (session id linked). -/
def sampleOrder : Order :=
  { pendingOrder sampleUser sampleItems 0 with stripeSessionId := some "s1" }

/-- The spec's example completion event: `amount_total = 2258`,
`amount_subtotal = 1998` (minor units). -/
def sampleEvent : StripeEvent :=
  ⟨"checkout.session.completed", ⟨some "o1", some 2258, some 1998, some "pi_1"⟩⟩

/-- The Reconciler run on the spec's example. -/
def sampleWebhook : ℕ × Store := stripeWebhook true sampleEvent 7 sampleCheckout.store

/-- The same completion event delivered a second time. -/
def sampleReplay : ℕ × Store := stripeWebhook true sampleEvent 8 sampleWebhook.2

/-- A store with a single unit of stock. -/
def scarceStore : Store := ⟨[("p1", ⟨"Widget", 999 / 100, some 1, none⟩)], []⟩

/-- A one-unit cart request against `scarceStore`. -/
def unitReq : CheckoutRequest := ⟨"POST", some [⟨"p1", 1, 0⟩], some sampleUser⟩

/-- Two sequential checkouts of one unit each against a stock of one:
both pass the stock check, because stock is only decremented at
completion. -/
def storeAfterTwoCheckouts : Store :=
  (createCheckoutSession unitReq "o2" "s2" "u" 0
    (createCheckoutSession unitReq "o1" "s1" "u" 0 scarceStore).store).store

/-- A completion event for order `oid` reporting 999 total and subtotal. -/
def completionOf (oid pi : String) : StripeEvent :=
  ⟨"checkout.session.completed", ⟨some oid, some 999, some 999, some pi⟩⟩

/-- Both completion events delivered: each order's batch decrements the
shared product once. -/
def storeAfterBothEvents : Store :=
  (stripeWebhook true (completionOf "o2" "piB") 2
    (stripeWebhook true (completionOf "o1" "piA") 1 storeAfterTwoCheckouts).2).2

/-- A request whose only entry submits quantity 0 for a product that
exists with ample stock. -/
def zeroQtyReq : CheckoutRequest := ⟨"POST", some [⟨"p1", 0, 999 / 100⟩], some sampleUser⟩

/-- A request whose only entry submits quantity -3. -/
def negQtyReq : CheckoutRequest := ⟨"POST", some [⟨"p1", -3, 0⟩], some sampleUser⟩

/-- A cart mixing an unknown product id with the example product. -/
def mixedCart : List CartEntry := [⟨"ghost", 1, 5⟩, ⟨"p1", 2, 999 / 100⟩]

/-- A request for `mixedCart`. -/
def mixedReq : CheckoutRequest := ⟨"POST", some mixedCart, some sampleUser⟩

/-- A request whose cart references only an unknown product id. -/
def unknownOnlyReq : CheckoutRequest := ⟨"POST", some [⟨"ghost", 1, 5⟩], some sampleUser⟩

/-- A completion event for `o1` with both reported amounts absent. -/
def missingAmountsEvent : StripeEvent :=
  ⟨"checkout.session.completed", ⟨some "o1", none, none, some "pi_2"⟩⟩

/-- A completion event for `o1` with `amount_total` absent but
`amount_subtotal = 1998`. -/
def missingTotalEvent : StripeEvent :=
  ⟨"checkout.session.completed", ⟨some "o1", none, some 1998, some "pi_3"⟩⟩

/-- An event of a type the Reconciler ignores. -/
def otherEvent : StripeEvent :=
  ⟨"payment_intent.succeeded", ⟨some "o1", some 1, some 1, none⟩⟩

/-! ### Association-list laws -/

/-- Updating a key rewrites its binding under lookup. -/
theorem lookup_updateAssoc_self (k : String) (f : α → α) (l : List (String × α)) :
    lookup k (updateAssoc k f l) = (lookup k l).map f := by
  induction l with
  | nil => rfl
  | cons hd tl ih =>
      obtain ⟨k', v⟩ := hd
      by_cases h : k' = k
      · simp [updateAssoc, lookup, h]
      · simp [updateAssoc, lookup, h, ih]

/-- Updating one key leaves every other key's binding alone. -/
theorem lookup_updateAssoc_ne (k k' : String) (hne : k' ≠ k) (f : α → α)
    (l : List (String × α)) : lookup k (updateAssoc k' f l) = lookup k l := by
  induction l with
  | nil => rfl
  | cons hd tl ih =>
      obtain ⟨k'', v⟩ := hd
      by_cases h : k'' = k'
      · subst h
        simp [updateAssoc, lookup, hne]
      · by_cases h2 : k'' = k
        · simp [updateAssoc, lookup, h, h2, Ne.symm hne]
        · simp [updateAssoc, lookup, h, h2, ih]

/-- Products not referenced by any queued line are untouched by the
batch's stock updates. -/
theorem lookup_applyDecrements_not_mem (items : List OrderItem)
    (ps : List (String × Product)) (pid : String)
    (h : pid ∉ items.map (·.productId)) :
    lookup pid (applyDecrements items ps) = lookup pid ps := by
  induction items generalizing ps with
  | nil => rfl
  | cons it rest ih =>
      simp only [List.map_cons, List.mem_cons, not_or] at h
      rw [applyDecrements, ih _ h.2, lookup_updateAssoc_ne _ _ (fun hx => h.1 hx.symm)]

/-- With pairwise-distinct product ids, each queued line decrements
exactly its own product. -/
theorem lookup_applyDecrements_nodup (items : List OrderItem)
    (ps : List (String × Product)) (hnd : (items.map (·.productId)).Nodup)
    (it : OrderItem) (hit : it ∈ items) :
    lookup it.productId (applyDecrements items ps)
      = (lookup it.productId ps).map (decStock it.qty) := by
  induction items generalizing ps with
  | nil => cases hit
  | cons hd rest ih =>
      rw [List.map_cons, List.nodup_cons] at hnd
      rcases List.mem_cons.mp hit with h | h
      · subst h
        rw [applyDecrements,
            lookup_applyDecrements_not_mem _ _ _ (by simpa using hnd.1),
            lookup_updateAssoc_self]
      · rw [applyDecrements, ih _ hnd.2 h,
            lookup_updateAssoc_ne _ _
              (fun hx => hnd.1 (by
                rw [hx]
                exact List.mem_map_of_mem (fun x => x.productId) h))]

/-- When every line has a truthy product id and quantity, the skip guard
keeps them all. -/
theorem activeItems_eq_self (items : List OrderItem)
    (h : ∀ it ∈ items, it.productId ≠ "" ∧ it.qty ≠ 0) :
    activeItems items = items :=
  List.filter_eq_self.mpr fun it hit => by simpa using h it hit

/-! ### Handler path lemmas -/

/-- A verified completion event whose metadata names an existing order,
with every queued product present, answers 200 and applies exactly the
one batch commit. -/
theorem stripeWebhook_matched (ev : StripeEvent) (oid : String) (order : Order)
    (now : ℕ) (st : Store)
    (hty : ev.type = "checkout.session.completed")
    (hmeta : ev.session.metadata_firebaseOrderId = some oid)
    (hoid : oid ≠ "")
    (hord : lookup oid st.orders = some order)
    (hall : ∀ it ∈ activeItems order.items, (lookup it.productId st.products).isSome) :
    stripeWebhook true ev now st = (200, commitBatch oid order ev.session now st) := by
  have hallb : ((activeItems order.items).all
      fun it => (lookup it.productId st.products).isSome) = true :=
    List.all_eq_true.mpr fun it hit => hall it hit
  simp [stripeWebhook, hty, hmeta, hoid, hord, hallb]

/-- A valid request whose revalidation loop aborts on stock answers the
insufficient-stock error, with no store change and no side effect. -/
theorem createCheckoutSession_stockError (req : CheckoutRequest) (cart : List CartEntry)
    (u : UserInfo) (oid sid url : String) (now : ℕ) (st : Store) (nm : String)
    (hm : req.method = "POST") (hc : req.cart = some cart) (hu : req.user = some u)
    (huid : u.uid ≠ "") (hemail : u.email ≠ "")
    (hb : buildItems st cart = .error nm) :
    createCheckoutSession req oid sid url now st = ⟨.stockError nm, st, []⟩ := by
  simp [createCheckoutSession, hm, hc, hu, huid, hemail, hb]

/-- A valid request whose revalidation loop keeps no item answers the
empty-cart error, with no store change and no side effect. -/
theorem createCheckoutSession_emptyCart (req : CheckoutRequest) (cart : List CartEntry)
    (u : UserInfo) (oid sid url : String) (now : ℕ) (st : Store)
    (hm : req.method = "POST") (hc : req.cart = some cart) (hu : req.user = some u)
    (huid : u.uid ≠ "") (hemail : u.email ≠ "")
    (hb : buildItems st cart = .ok []) :
    createCheckoutSession req oid sid url now st = ⟨.emptyCart, st, []⟩ := by
  simp [createCheckoutSession, hm, hc, hu, huid, hemail, hb]

/-- A valid request whose revalidation loop keeps at least one item
creates the pending order, calls the processor, and links the session id,
in that order. -/
theorem createCheckoutSession_ok (req : CheckoutRequest) (cart : List CartEntry)
    (u : UserInfo) (oid sid url : String) (now : ℕ) (st : Store) (items : List Item)
    (hm : req.method = "POST") (hc : req.cart = some cart) (hu : req.user = some u)
    (huid : u.uid ≠ "") (hemail : u.email ≠ "")
    (hb : buildItems st cart = .ok items) (hne : items ≠ []) :
    createCheckoutSession req oid sid url now st =
      ⟨.ok url,
       ⟨st.products,
        (oid, { pendingOrder u items now with stripeSessionId := some sid }) :: st.orders⟩,
       [.createOrder oid, .stripeSessionCreate sid, .updateOrder oid]⟩ := by
  simp [createCheckoutSession, hm, hc, hu, huid, hemail, hb, hne]

/-! ### Revalidation-loop laws -/

/-- Entries with a falsy id, falsy (zero) quantity, or an id that does
not resolve are skipped silently. -/
theorem buildItems_skip (st : Store) (e : CartEntry) (rest : List CartEntry)
    (h : e.id = "" ∨ e.quantity = 0 ∨ lookup e.id st.products = none) :
    buildItems st (e :: rest) = buildItems st rest := by
  rcases h with h | h | h
  · simp [buildItems, h]
  · simp [buildItems, h]
  · rw [buildItems]
    by_cases hg : e.id = "" ∨ e.quantity = 0
    · simp [hg]
    · simp [hg, h]

/-- If some retained entry's product has numeric stock below its clamped
quantity, the loop aborts with the name of such an offending product. -/
theorem buildItems_error_of_offender (st : Store) (cart : List CartEntry)
    (h : ∃ e ∈ cart, e.id ≠ "" ∧ e.quantity ≠ 0 ∧ ∃ p s,
      lookup e.id st.products = some p ∧ p.stock = some s ∧ s < max 1 e.quantity) :
    ∃ nm, buildItems st cart = .error nm ∧ ∃ e ∈ cart, e.id ≠ "" ∧ e.quantity ≠ 0 ∧
      ∃ p s, lookup e.id st.products = some p ∧ p.name = nm ∧ p.stock = some s ∧
        s < max 1 e.quantity := by
  induction cart with
  | nil => simp at h
  | cons hd rest ih =>
      obtain ⟨e, he, hid, hq, p, s, hp, hs, hlt⟩ := h
      rcases List.mem_cons.mp he with rfl | hmem
      · refine ⟨p.name, ?_, e, List.mem_cons_self _ _, hid, hq, p, s, hp, rfl, hs, hlt⟩
        rw [buildItems]
        simp [hid, hq, hp, hs, hlt]
      · by_cases hskip : hd.id = "" ∨ hd.quantity = 0
        · rw [buildItems_skip _ _ _ (hskip.imp id Or.inl)]
          obtain ⟨nm, herr, e', he', rest'⟩ := ih ⟨e, hmem, hid, hq, p, s, hp, hs, hlt⟩
          exact ⟨nm, herr, e', List.mem_cons_of_mem _ he', rest'⟩
        · cases hl : lookup hd.id st.products with
          | none =>
              rw [buildItems_skip _ _ _ (Or.inr (Or.inr hl))]
              obtain ⟨nm, herr, e', he', rest'⟩ := ih ⟨e, hmem, hid, hq, p, s, hp, hs, hlt⟩
              exact ⟨nm, herr, e', List.mem_cons_of_mem _ he', rest'⟩
          | some q =>
              push_neg at hskip
              obtain ⟨nm, herr, e', he', rest'⟩ := ih ⟨e, hmem, hid, hq, p, s, hp, hs, hlt⟩
              cases hst : q.stock with
              | some s' =>
                  by_cases hlt' : s' < max 1 hd.quantity
                  · refine ⟨q.name, ?_, hd, List.mem_cons_self _ _, hskip.1, hskip.2,
                      q, s', hl, rfl, hst, hlt'⟩
                    rw [buildItems]
                    simp [hskip.1, hskip.2, hl, hst, hlt']
                  · refine ⟨nm, ?_, e', List.mem_cons_of_mem _ he', rest'⟩
                    rw [buildItems]
                    simp [hskip.1, hskip.2, hl, hst, hlt', herr, Except.map]
              | none =>
                  refine ⟨nm, ?_, e', List.mem_cons_of_mem _ he', rest'⟩
                  rw [buildItems]
                  simp [hskip.1, hskip.2, hl, hst, herr, Except.map]

/-- Unfolding the loop at a retained entry that resolves to `p`. -/
theorem buildItems_cons_resolved (st : Store) (e : CartEntry) (rest : List CartEntry)
    (p : Product) (hid : e.id ≠ "") (hq : e.quantity ≠ 0)
    (hp : lookup e.id st.products = some p) :
    buildItems st (e :: rest) =
      match p.stock with
      | some s =>
          if s < max 1 e.quantity then .error p.name
          else (buildItems st rest).map (mkItem e p :: ·)
      | none => (buildItems st rest).map (mkItem e p :: ·) := by
  rw [buildItems]
  simp [hid, hq, hp]

/-- At a retained entry with sufficient or untracked stock, the loop
prepends the entry's item to the tail's result. -/
theorem buildItems_cons_keep (st : Store) (e : CartEntry) (rest : List CartEntry)
    (p : Product) (hid : e.id ≠ "") (hq : e.quantity ≠ 0)
    (hp : lookup e.id st.products = some p)
    (hok : ∀ s, p.stock = some s → ¬s < max 1 e.quantity) :
    buildItems st (e :: rest) = (buildItems st rest).map (mkItem e p :: ·) := by
  rw [buildItems_cons_resolved st e rest p hid hq hp]
  split
  · rename_i s hst
    exact if_neg (hok s hst)
  · rfl

/-- At a retained entry whose product tracks stock below the clamped
quantity, the loop aborts with that product's name. -/
theorem buildItems_cons_insufficient (st : Store) (e : CartEntry) (rest : List CartEntry)
    (p : Product) (s : ℤ) (hid : e.id ≠ "") (hq : e.quantity ≠ 0)
    (hp : lookup e.id st.products = some p) (hs : p.stock = some s)
    (hlt : s < max 1 e.quantity) :
    buildItems st (e :: rest) = .error p.name := by
  rw [buildItems_cons_resolved st e rest p hid hq hp]
  split
  · rename_i s' hst
    rw [hs] at hst
    cases hst
    exact if_pos hlt
  · rename_i hst
    rw [hs] at hst
    cases hst

/-- A retained entry (truthy id and quantity, resolving to `p`)
contributes its clamped item whenever the loop succeeds. -/
theorem buildItems_ok_mem (st : Store) (cart : List CartEntry) (items : List Item)
    (hok : buildItems st cart = .ok items) (e : CartEntry) (he : e ∈ cart)
    (hid : e.id ≠ "") (hq : e.quantity ≠ 0) (p : Product)
    (hp : lookup e.id st.products = some p) :
    mkItem e p ∈ items := by
  induction cart generalizing items with
  | nil => cases he
  | cons hd rest ih =>
      rcases List.mem_cons.mp he with rfl | hmem
      · have hkeep : ∀ s, p.stock = some s → ¬s < max 1 e.quantity := by
          intro s hs hlt
          rw [buildItems_cons_insufficient st e rest p s hid hq hp hs hlt] at hok
          cases hok
        rw [buildItems_cons_keep st e rest p hid hq hp hkeep] at hok
        cases hrest : buildItems st rest with
        | error nm => rw [hrest] at hok; cases hok
        | ok tail =>
            rw [hrest] at hok
            cases hok
            exact List.mem_cons_self _ _
      · by_cases hskip : hd.id = "" ∨ hd.quantity = 0
        · rw [buildItems_skip _ _ _ (hskip.imp id Or.inl)] at hok
          exact ih _ hok hmem
        · push_neg at hskip
          cases hl : lookup hd.id st.products with
          | none =>
              rw [buildItems_skip _ _ _ (Or.inr (Or.inr hl))] at hok
              exact ih _ hok hmem
          | some q =>
              have hkeep : ∀ s, q.stock = some s → ¬s < max 1 hd.quantity := by
                intro s hs hlt
                rw [buildItems_cons_insufficient st hd rest q s hskip.1 hskip.2 hl hs hlt]
                  at hok
                cases hok
              rw [buildItems_cons_keep st hd rest q hskip.1 hskip.2 hl hkeep] at hok
              cases hrest : buildItems st rest with
              | error nm => rw [hrest] at hok; cases hok
              | ok tail =>
                  rw [hrest] at hok
                  cases hok
                  exact List.mem_cons_of_mem _ (ih _ hrest hmem)

/-- On success the kept items are exactly the retained entries' items, in
cart order. -/
theorem buildItems_ok_shape (st : Store) (cart : List CartEntry) (items : List Item)
    (hok : buildItems st cart = .ok items) :
    items = (cart.filter (resolvedEntry st)).map (entryItem st) := by
  induction cart generalizing items with
  | nil =>
      cases hok
      rfl
  | cons hd rest ih =>
      by_cases hskip : hd.id = "" ∨ hd.quantity = 0
      · rw [buildItems_skip _ _ _ (hskip.imp id Or.inl)] at hok
        rw [List.filter_cons_of_neg (by simp [resolvedEntry]; tauto)]
        exact ih _ hok
      · push_neg at hskip
        cases hl : lookup hd.id st.products with
        | none =>
            rw [buildItems_skip _ _ _ (Or.inr (Or.inr hl))] at hok
            rw [List.filter_cons_of_neg (by simp [resolvedEntry, hl])]
            exact ih _ hok
        | some q =>
            have hkeep : ∀ s, q.stock = some s → ¬s < max 1 hd.quantity := by
              intro s hs hlt
              rw [buildItems_cons_insufficient st hd rest q s hskip.1 hskip.2 hl hs hlt]
                at hok
              cases hok
            rw [buildItems_cons_keep st hd rest q hskip.1 hskip.2 hl hkeep] at hok
            cases hrest : buildItems st rest with
            | error nm => rw [hrest] at hok; cases hok
            | ok tail =>
                rw [hrest] at hok
                cases hok
                rw [List.filter_cons_of_pos (by simp [resolvedEntry, hl, hskip.1, hskip.2])]
                rw [List.map_cons]
                refine congrArg₂ _ ?_ (ih _ hrest)
                rw [entryItem, hl]

/-- The source's `reduce` accumulation is the sum of the per-item
amounts. -/
theorem foldl_add_eq_sum (f : Item → ℚ) (l : List Item) (a : ℚ) :
    l.foldl (fun s it => s + f it) a = a + (l.map f).sum := by
  induction l generalizing a with
  | nil => simp
  | cons hd tl ih => simp [ih, add_assoc]

/-- On success, the persisted subtotal is the rounded sum over retained
entries of the live per-line amounts. -/
theorem itemsSubtotal_eq_liveSum (st : Store) (cart : List CartEntry) (items : List Item)
    (hok : buildItems st cart = .ok items) :
    itemsSubtotal items
      = round2 (((cart.filter (resolvedEntry st)).map (liveLineAmount st)).sum) := by
  rw [itemsSubtotal, foldl_add_eq_sum, zero_add, buildItems_ok_shape st cart items hok,
      List.map_map]
  congr 1
  refine congrArg _ (List.map_congr_left fun e hmem => ?_)
  have hres : resolvedEntry st e = true := (List.mem_filter.mp hmem).2
  rw [resolvedEntry, Bool.and_eq_true, Option.isSome_iff_exists] at hres
  obtain ⟨p, hp⟩ := hres.2
  simp only [Function.comp_apply, entryItem, liveLineAmount, hp, mkItem]

/-- The revalidation loop never reads the client-submitted price field. -/
theorem buildItems_withClientPrices (st : Store) (f : CartEntry → ℚ)
    (cart : List CartEntry) :
    buildItems st (withClientPrices f cart) = buildItems st cart := by
  induction cart with
  | nil => rfl
  | cons hd rest ih =>
      show buildItems st ({ hd with price := f hd } :: withClientPrices f rest) = _
      rw [buildItems, buildItems]
      simp only [ih, mkItem]

/-! ### Claims -/

/-- C1: for every verified completion event whose metadata names an
existing order (all of whose lines are truthy, distinct, and resolve to
products with numeric stock), the Reconciler answers 200 and commits one
atomic batch (`commitBatch`, a single store transition, so no
intermediate state is observable) that sets the order to `paid` with
total = reported total / 100, combined tax = the two-decimal rounding of
reported total minus reported subtotal, both sub-taxes zero, the
processor's payment-intent id and the server-assigned paid timestamp,
and decrements each line's product stock by exactly that line's
quantity. -/
theorem c1_reconciler_commits_paid_and_decrements
    (ev : StripeEvent) (oid : String) (order : Order) (now : ℕ) (st : Store)
    (hty : ev.type = "checkout.session.completed")
    (hmeta : ev.session.metadata_firebaseOrderId = some oid)
    (hoid : oid ≠ "")
    (hord : lookup oid st.orders = some order)
    (hnd : (order.items.map (·.productId)).Nodup)
    (hitems : ∀ it ∈ order.items, it.productId ≠ "" ∧ it.qty ≠ 0 ∧
      ∃ p, lookup it.productId st.products = some p ∧ ∃ s, p.stock = some s) :
    (stripeWebhook true ev now st).1 = 200 ∧
    (stripeWebhook true ev now st).2 = commitBatch oid order ev.session now st ∧
    lookup oid (stripeWebhook true ev now st).2.orders = some
      { order with
        status := .paid
        total := ((ev.session.amount_total.getD 0 : ℤ) : ℚ) / 100
        taxes := round2 (((ev.session.amount_total.getD 0 : ℤ) : ℚ) / 100
          - ((ev.session.amount_subtotal.getD 0 : ℤ) : ℚ) / 100)
        tps := 0
        tvq := 0
        stripePaymentIntentId := ev.session.payment_intent
        paidAt := some now } ∧
    ∀ it ∈ order.items, ∀ p s, lookup it.productId st.products = some p →
      p.stock = some s →
      lookup it.productId (stripeWebhook true ev now st).2.products
        = some { p with stock := some (s - it.qty) } := by
  have hact : activeItems order.items = order.items :=
    activeItems_eq_self _ fun it hit => ⟨(hitems it hit).1, (hitems it hit).2.1⟩
  have hall : ∀ it ∈ activeItems order.items,
      (lookup it.productId st.products).isSome := by
    rw [hact]
    intro it hit
    obtain ⟨p, hp, _⟩ := (hitems it hit).2.2
    rw [hp]
    rfl
  have hrun := stripeWebhook_matched ev oid order now st hty hmeta hoid hord hall
  refine ⟨by rw [hrun], by rw [hrun], ?_, ?_⟩
  · rw [hrun]
    show lookup oid (updateAssoc oid (reconciledOrder ev.session now) st.orders) = _
    rw [lookup_updateAssoc_self, hord]
    rfl
  · intro it hit p s hp hs
    rw [hrun]
    show lookup it.productId (applyDecrements (activeItems order.items) st.products) = _
    rw [hact, lookup_applyDecrements_nodup _ _ hnd it hit, hp]
    simp [decStock, hs]

/-- C1 witness: the spec's example.  A cart of two units of a 9.99
product (stock 5), completed with reported total 2258 and subtotal 1998
minor units, persists taxes 2.60 and total 22.58 on the paid order and
leaves stock 3. -/
theorem c1_witness_spec_example :
    (stripeWebhook true sampleEvent 7 sampleCheckout.store).1 = 200 ∧
    (∃ o, lookup "o1" (stripeWebhook true sampleEvent 7 sampleCheckout.store).2.orders
        = some o ∧ o.status = .paid ∧ o.taxes = 260 / 100 ∧ o.total = 2258 / 100 ∧
      o.tps = 0 ∧ o.tvq = 0 ∧ o.stripePaymentIntentId = some "pi_1" ∧
      o.paidAt = some 7) ∧
    ∃ p, lookup "p1" (stripeWebhook true sampleEvent 7 sampleCheckout.store).2.products
        = some p ∧ p.stock = some 3 := by
  have hitems : sampleOrder.items = [⟨"p1", "Widget", 2, 999 / 100⟩] := by
    with_unfolding_all rfl
  have h := c1_reconciler_commits_paid_and_decrements sampleEvent "o1" sampleOrder 7
    sampleCheckout.store rfl rfl (by decide) (by with_unfolding_all rfl)
    (by rw [hitems]; decide)
    (by
      rw [hitems]
      intro it hit
      rw [List.mem_singleton] at hit
      subst hit
      exact ⟨by decide, by decide, sampleProduct, by with_unfolding_all rfl, 5, rfl⟩)
  refine ⟨h.1, ⟨_, h.2.2.1, rfl, by with_unfolding_all rfl, by with_unfolding_all rfl,
    rfl, rfl, rfl, rfl⟩, ?_⟩
  have hdec := h.2.2.2 ⟨"p1", "Widget", 2, 999 / 100⟩
    (by rw [hitems]; exact List.mem_singleton_self _) sampleProduct 5
    (by with_unfolding_all rfl) rfl
  exact ⟨_, hdec, by decide⟩

/-- C8: delivering the same verified completion event twice is idempotent
for the order's status (it stays `paid`) but not for stock: the second
delivery runs the same unguarded batch again, so each line's product
stock ends up decremented by twice the line quantity. -/
theorem c8_replay_double_decrements
    (ev : StripeEvent) (oid : String) (order : Order) (now now2 : ℕ) (st : Store)
    (hty : ev.type = "checkout.session.completed")
    (hmeta : ev.session.metadata_firebaseOrderId = some oid)
    (hoid : oid ≠ "")
    (hord : lookup oid st.orders = some order)
    (hnd : (order.items.map (·.productId)).Nodup)
    (hitems : ∀ it ∈ order.items, it.productId ≠ "" ∧ it.qty ≠ 0 ∧
      ∃ p, lookup it.productId st.products = some p ∧ ∃ s, p.stock = some s) :
    (∃ o, lookup oid
        (stripeWebhook true ev now2 (stripeWebhook true ev now st).2).2.orders
        = some o ∧ o.status = .paid) ∧
    ∀ it ∈ order.items, ∀ p s, lookup it.productId st.products = some p →
      p.stock = some s →
      lookup it.productId
          (stripeWebhook true ev now2 (stripeWebhook true ev now st).2).2.products
        = some { p with stock := some (s - 2 * it.qty) } := by
  have hact : activeItems order.items = order.items :=
    activeItems_eq_self _ fun it hit => ⟨(hitems it hit).1, (hitems it hit).2.1⟩
  have hall : ∀ it ∈ activeItems order.items,
      (lookup it.productId st.products).isSome := by
    rw [hact]
    intro it hit
    obtain ⟨p, hp, _⟩ := (hitems it hit).2.2
    rw [hp]
    rfl
  have hrun := stripeWebhook_matched ev oid order now st hty hmeta hoid hord hall
  have hord1 : lookup oid (stripeWebhook true ev now st).2.orders
      = some (reconciledOrder ev.session now order) := by
    rw [hrun]
    show lookup oid (updateAssoc oid (reconciledOrder ev.session now) st.orders) = _
    rw [lookup_updateAssoc_self, hord]
    rfl
  have hprod1 : ∀ it ∈ order.items,
      lookup it.productId (stripeWebhook true ev now st).2.products
        = (lookup it.productId st.products).map (decStock it.qty) := by
    intro it hit
    rw [hrun]
    show lookup it.productId (applyDecrements (activeItems order.items) st.products) = _
    rw [hact, lookup_applyDecrements_nodup _ _ hnd it hit]
  have hitems1 : (reconciledOrder ev.session now order).items = order.items := rfl
  have hall1 : ∀ it ∈ activeItems (reconciledOrder ev.session now order).items,
      (lookup it.productId (stripeWebhook true ev now st).2.products).isSome := by
    rw [hitems1, hact]
    intro it hit
    obtain ⟨p, hp, _⟩ := (hitems it hit).2.2
    rw [hprod1 it hit, hp]
    rfl
  have hrun2 := stripeWebhook_matched ev oid (reconciledOrder ev.session now order) now2
    (stripeWebhook true ev now st).2 hty hmeta hoid hord1 hall1
  constructor
  · refine ⟨reconciledOrder ev.session now2 (reconciledOrder ev.session now order), ?_, rfl⟩
    rw [hrun2]
    show lookup oid (updateAssoc oid (reconciledOrder ev.session now2)
      (stripeWebhook true ev now st).2.orders) = _
    rw [lookup_updateAssoc_self, hord1]
    rfl
  · intro it hit p s hp hs
    rw [hrun2]
    show lookup it.productId (applyDecrements
      (activeItems (reconciledOrder ev.session now order).items)
      (stripeWebhook true ev now st).2.products) = _
    rw [hitems1, hact, lookup_applyDecrements_nodup _ _ hnd it hit, hprod1 it hit, hp]
    show some (decStock it.qty (decStock it.qty p)) = _
    rw [decStock, decStock]
    simp only [hs, Option.getD_some, Option.some.injEq]
    congr 2
    ring

/-- C8 witness: replaying the spec's example completion event leaves the
order `paid` and the stock at 1 = 5 - 2*2, double-applying the
decrement. -/
theorem c8_witness_replay :
    (∃ o, lookup "o1"
        (stripeWebhook true sampleEvent 8 (stripeWebhook true sampleEvent 7
          sampleCheckout.store).2).2.orders = some o ∧ o.status = .paid) ∧
    ∃ p, lookup "p1"
        (stripeWebhook true sampleEvent 8 (stripeWebhook true sampleEvent 7
          sampleCheckout.store).2).2.products = some p ∧ p.stock = some 1 := by
  have hitems : sampleOrder.items = [⟨"p1", "Widget", 2, 999 / 100⟩] := by
    with_unfolding_all rfl
  have h := c8_replay_double_decrements sampleEvent "o1" sampleOrder 7 8
    sampleCheckout.store rfl rfl (by decide) (by with_unfolding_all rfl)
    (by rw [hitems]; decide)
    (by
      rw [hitems]
      intro it hit
      rw [List.mem_singleton] at hit
      subst hit
      exact ⟨by decide, by decide, sampleProduct, by with_unfolding_all rfl, 5, rfl⟩)
  obtain ⟨⟨o, ho, hos⟩, hdec⟩ := h
  refine ⟨⟨o, ho, hos⟩, ?_⟩
  have := hdec ⟨"p1", "Widget", 2, 999 / 100⟩
    (by rw [hitems]; exact List.mem_singleton_self _) sampleProduct 5
    (by with_unfolding_all rfl) rfl
  exact ⟨_, this, by decide⟩

/-- An unverifiable signature is answered 400 with the store untouched. -/
theorem stripeWebhook_badSig (ev : StripeEvent) (now : ℕ) (st : Store) :
    stripeWebhook false ev now st = (400, st) := rfl

/-- A verified event of any other type is acknowledged 200, untouched. -/
theorem stripeWebhook_wrongType (ev : StripeEvent) (now : ℕ) (st : Store)
    (h : ev.type ≠ "checkout.session.completed") :
    stripeWebhook true ev now st = (200, st) := by
  rw [stripeWebhook]
  simp [h]

/-- A verified completion event without a metadata order id is
acknowledged 200, untouched. -/
theorem stripeWebhook_noOid (ev : StripeEvent) (now : ℕ) (st : Store)
    (h : ev.session.metadata_firebaseOrderId = none) :
    stripeWebhook true ev now st = (200, st) := by
  rw [stripeWebhook]
  by_cases hty : ev.type = "checkout.session.completed"
  · simp [hty, h]
  · simp [hty]

/-- A verified completion event whose order id is empty or does not
resolve is acknowledged 200, untouched. -/
theorem stripeWebhook_noMatch (ev : StripeEvent) (now : ℕ) (st : Store) (oid : String)
    (hm : ev.session.metadata_firebaseOrderId = some oid)
    (h : oid = "" ∨ lookup oid st.orders = none) :
    stripeWebhook true ev now st = (200, st) := by
  rw [stripeWebhook]
  by_cases hty : ev.type = "checkout.session.completed"
  · rcases h with h | h
    · simp [hty, hm, h]
    · by_cases hoid : oid = ""
      · simp [hty, hm, hoid]
      · simp [hty, hm, hoid, h]
  · simp [hty]

/-- C2: the Reconciler mutates no document unless the signature verifies,
the event type is 'checkout.session.completed', the metadata carries a
truthy order id, and that order exists; a signature failure is answered
400 before any payload field is trusted, and each other non-matching
case is acknowledged 200 with the store unchanged. -/
theorem c2_webhook_guards (sigOk : Bool) (ev : StripeEvent) (now : ℕ) (st : Store) :
    ((stripeWebhook sigOk ev now st).2 ≠ st →
      sigOk = true ∧ ev.type = "checkout.session.completed" ∧
      ∃ oid, ev.session.metadata_firebaseOrderId = some oid ∧ oid ≠ "" ∧
        ∃ o, lookup oid st.orders = some o) ∧
    (sigOk = false → stripeWebhook sigOk ev now st = (400, st)) ∧
    (sigOk = true → ev.type ≠ "checkout.session.completed" →
      stripeWebhook sigOk ev now st = (200, st)) ∧
    (sigOk = true → ev.session.metadata_firebaseOrderId = none →
      stripeWebhook sigOk ev now st = (200, st)) ∧
    (∀ oid, sigOk = true → ev.session.metadata_firebaseOrderId = some oid →
      oid = "" ∨ lookup oid st.orders = none →
      stripeWebhook sigOk ev now st = (200, st)) := by
  cases sigOk with
  | false =>
      refine ⟨fun hne => absurd rfl hne, fun _ => rfl,
        fun h => absurd h (by simp), fun h => absurd h (by simp),
        fun _ h => absurd h (by simp)⟩
  | true =>
      refine ⟨?_, fun h => absurd h (by simp),
        fun _ hty => stripeWebhook_wrongType ev now st hty,
        fun _ hm => stripeWebhook_noOid ev now st hm,
        fun oid _ hm hbad => stripeWebhook_noMatch ev now st oid hm hbad⟩
      intro hne
      by_cases hty : ev.type = "checkout.session.completed"
      · cases hm : ev.session.metadata_firebaseOrderId with
        | none => exact absurd (by rw [stripeWebhook_noOid ev now st hm]) hne
        | some oid =>
            by_cases hoid : oid = ""
            · exact absurd
                (by rw [stripeWebhook_noMatch ev now st oid hm (Or.inl hoid)]) hne
            · cases hord : lookup oid st.orders with
              | none =>
                  exact absurd
                    (by rw [stripeWebhook_noMatch ev now st oid hm (Or.inr hord)]) hne
              | some o => exact ⟨rfl, hty, oid, rfl, hoid, o, hord⟩
      · exact absurd (by rw [stripeWebhook_wrongType ev now st hty]) hne

/-- C2 witness: a bad signature answers 400 untouched; a verified event
of another type, and a verified completion event naming an order absent
from the store, both answer 200 untouched. -/
theorem c2_witness :
    stripeWebhook false sampleEvent 3 sampleStore = (400, sampleStore) ∧
    stripeWebhook true otherEvent 3 sampleStore = (200, sampleStore) ∧
    stripeWebhook true sampleEvent 3 sampleStore = (200, sampleStore) :=
  ⟨(c2_webhook_guards false sampleEvent 3 sampleStore).2.1 rfl,
   (c2_webhook_guards true otherEvent 3 sampleStore).2.2.1 rfl (by decide),
   (c2_webhook_guards true sampleEvent 3 sampleStore).2.2.2.2 "o1" rfl rfl
     (Or.inr rfl)⟩

/-- C3: for every valid request whose cart contains an entry that the
loop reaches (truthy id and quantity) whose resolved product tracks a
numeric stock below the requested quantity, the Initiator answers a 400
insufficient-stock error naming an offending product, creates no order,
writes nothing, and never calls the processor. -/
theorem c3_insufficient_stock_aborts (req : CheckoutRequest) (cart : List CartEntry)
    (u : UserInfo) (oid sid url : String) (now : ℕ) (st : Store)
    (hm : req.method = "POST") (hc : req.cart = some cart) (hu : req.user = some u)
    (huid : u.uid ≠ "") (hemail : u.email ≠ "")
    (e : CartEntry) (he : e ∈ cart) (hid : e.id ≠ "") (hq : e.quantity ≠ 0)
    (p : Product) (s : ℤ) (hp : lookup e.id st.products = some p)
    (hs : p.stock = some s) (hlt : s < e.quantity) :
    ∃ nm, createCheckoutSession req oid sid url now st = ⟨.stockError nm, st, []⟩ ∧
      ∃ e' ∈ cart, e'.id ≠ "" ∧ e'.quantity ≠ 0 ∧ ∃ p' s',
        lookup e'.id st.products = some p' ∧ p'.name = nm ∧ p'.stock = some s' ∧
        s' < max 1 e'.quantity := by
  have hlt' : s < max 1 e.quantity := lt_max_of_lt_right hlt
  obtain ⟨nm, herr, hoff⟩ :=
    buildItems_error_of_offender st cart ⟨e, he, hid, hq, p, s, hp, hs, hlt'⟩
  exact ⟨nm,
    createCheckoutSession_stockError req cart u oid sid url now st nm
      hm hc hu huid hemail herr, hoff⟩

/-- C3 witness: a cart asking for 7 units of the example product (stock
5) is rejected with the product's name, no order, no effect. -/
theorem c3_witness :
    ∃ nm, createCheckoutSession ⟨"POST", some [⟨"p1", 7, 0⟩], some sampleUser⟩
        "o1" "s1" "url" 0 sampleStore = ⟨.stockError nm, sampleStore, []⟩ ∧
      ∃ e' ∈ [(⟨"p1", 7, 0⟩ : CartEntry)], e'.id ≠ "" ∧ e'.quantity ≠ 0 ∧
        ∃ p' s', lookup e'.id sampleStore.products = some p' ∧ p'.name = nm ∧
          p'.stock = some s' ∧ s' < max 1 e'.quantity :=
  c3_insufficient_stock_aborts ⟨"POST", some [⟨"p1", 7, 0⟩], some sampleUser⟩
    [⟨"p1", 7, 0⟩] sampleUser "o1" "s1" "url" 0 sampleStore rfl rfl rfl
    (by decide) (by decide) ⟨"p1", 7, 0⟩ (List.mem_singleton_self _)
    (by decide) (by decide) sampleProduct 5 rfl rfl (by decide)

/-- C4: for every valid request whose revalidation keeps at least one
item, the Initiator persists exactly one new order, in `pending` state,
whose subtotal is the two-decimal (epsilon-nudged, half-up) rounding of
the sum over retained entries of (live unit price converted to integer
cents, divided by 100) times the clamped quantity; rewriting the
client-submitted price fields of the request changes nothing. -/
theorem c4_pending_order_subtotal (req : CheckoutRequest) (cart : List CartEntry)
    (u : UserInfo) (oid sid url : String) (now : ℕ) (st : Store) (items : List Item)
    (hm : req.method = "POST") (hc : req.cart = some cart) (hu : req.user = some u)
    (huid : u.uid ≠ "") (hemail : u.email ≠ "")
    (hb : buildItems st cart = .ok items) (hne : items ≠ []) :
    (∃ o, (createCheckoutSession req oid sid url now st).store.orders
        = (oid, o) :: st.orders ∧ o.status = .pending ∧
      o.subtotal
        = round2 (((cart.filter (resolvedEntry st)).map (liveLineAmount st)).sum)) ∧
    (createCheckoutSession req oid sid url now st).store.products = st.products ∧
    ∀ f, createCheckoutSession (withReqPrices f req) oid sid url now st
      = createCheckoutSession req oid sid url now st := by
  have hrun := createCheckoutSession_ok req cart u oid sid url now st items
    hm hc hu huid hemail hb hne
  refine ⟨⟨_, by rw [hrun], rfl, ?_⟩, by rw [hrun], ?_⟩
  · show (pendingOrder u items now).subtotal = _
    exact itemsSubtotal_eq_liveSum st cart items hb
  · intro f
    have hrun2 := createCheckoutSession_ok (withReqPrices f req)
      (withClientPrices f cart) u oid sid url now st items
      hm (by rw [withReqPrices, hc]; rfl) hu huid hemail
      (by rw [buildItems_withClientPrices]; exact hb) hne
    rw [hrun2, hrun]

/-- C4 witness: the spec's example.  One entry of quantity 2 against the
9.99 product keeps one item with unit amount 999 cents, and the persisted
pending order's subtotal is 19.98, whatever price the client submitted. -/
theorem c4_witness :
    buildItems sampleStore sampleCart = .ok [⟨"p1", "Widget", 999, 2, none⟩] ∧
    ∃ o, (createCheckoutSession sampleReq "o1" "s1" "https://pay.example" 0
        sampleStore).store.orders = ("o1", o) :: sampleStore.orders ∧
      o.status = .pending ∧ o.subtotal = 1998 / 100 := by
  have hb : buildItems sampleStore sampleCart = .ok sampleItems := by
    with_unfolding_all rfl
  have h := (c4_pending_order_subtotal sampleReq sampleCart sampleUser "o1" "s1"
    "https://pay.example" 0 sampleStore sampleItems rfl rfl rfl (by decide)
    (by decide) hb (List.cons_ne_nil _ _)).1
  obtain ⟨o, ho, hpend, hsub⟩ := h
  exact ⟨hb, o, ho, hpend, by rw [hsub]; with_unfolding_all rfl⟩

/-- C5 counterexample: on the spec's example request the Initiator's
side-effect trace is creation, then the processor session-creation call,
then the order update - not creation, update, session call as the claim
orders them. -/
theorem c5_counterexample_effect_order :
    (createCheckoutSession sampleReq "o1" "s1" "https://pay.example" 0
        sampleStore).effects
      = [.createOrder "o1", .stripeSessionCreate "s1", .updateOrder "o1"] ∧
    (createCheckoutSession sampleReq "o1" "s1" "https://pay.example" 0
        sampleStore).effects
      ≠ [.createOrder "o1", .updateOrder "o1", .stripeSessionCreate "s1"] := by
  with_unfolding_all decide

/-- A successful response can only come from the success path: POST, a
cart and a user with truthy uid and email, and a non-empty kept item
list. -/
theorem createCheckoutSession_ok_inv (req : CheckoutRequest) (oid sid url : String)
    (now : ℕ) (st : Store) (u' : String)
    (h : (createCheckoutSession req oid sid url now st).response = .ok u') :
    req.method = "POST" ∧ ∃ cart u items, req.cart = some cart ∧ req.user = some u ∧
      u.uid ≠ "" ∧ u.email ≠ "" ∧ buildItems st cart = .ok items ∧ items ≠ [] := by
  by_cases hm : req.method = "POST"
  · cases hc : req.cart with
    | none =>
        rw [createCheckoutSession] at h
        simp [hm, hc] at h
    | some cart =>
        cases hu : req.user with
        | none =>
            rw [createCheckoutSession] at h
            simp [hm, hc, hu] at h
        | some u =>
            by_cases hue : u.uid = "" ∨ u.email = ""
            · rw [createCheckoutSession] at h
              simp [hm, hc, hu] at h
              rw [if_pos hue] at h
              cases h
            · push_neg at hue
              cases hb : buildItems st cart with
              | error nm =>
                  rw [createCheckoutSession_stockError req cart u oid sid url now st nm
                    hm hc hu hue.1 hue.2 hb] at h
                  cases h
              | ok items =>
                  by_cases hni : items = []
                  · rw [hni] at hb
                    rw [createCheckoutSession_emptyCart req cart u oid sid url now st
                      hm hc hu hue.1 hue.2 hb] at h
                    cases h
                  · exact ⟨hm, cart, u, items, rfl, rfl, hue.1, hue.2, hb, hni⟩
  · rw [createCheckoutSession] at h
    simp [hm] at h

/-- C5 amended: on every successful invocation the three side effects
happen in the fixed order: order-document creation first, then the
processor session-creation call, then the order-document update - so the
order exists (with its durable id) before any processor interaction, but
the update follows, not precedes, the processor call. -/
theorem c5_amended_effect_order (req : CheckoutRequest) (oid sid url : String)
    (now : ℕ) (st : Store) (u' : String)
    (h : (createCheckoutSession req oid sid url now st).response = .ok u') :
    (createCheckoutSession req oid sid url now st).effects
      = [.createOrder oid, .stripeSessionCreate sid, .updateOrder oid] := by
  obtain ⟨hm, cart, u, items, hc, hu, huid, hemail, hb, hni⟩ :=
    createCheckoutSession_ok_inv req oid sid url now st u' h
  rw [createCheckoutSession_ok req cart u oid sid url now st items
    hm hc hu huid hemail hb hni]

/-- C5 witness: the effect order on the spec's example request. -/
theorem c5_witness :
    (createCheckoutSession sampleReq "o1" "s1" "https://pay.example" 0
        sampleStore).effects
      = [.createOrder "o1", .stripeSessionCreate "s1", .updateOrder "o1"] :=
  c5_amended_effect_order sampleReq "o1" "s1" "https://pay.example" 0 sampleStore
    "https://pay.example" (by with_unfolding_all rfl)

/-- C6: the invariant that tracked stock never goes negative under this
core's mutations fails on the code.  With stock 1, two sequential
checkouts of one unit each both pass the stock check (stock is only
decremented at completion), and the two completion batches then drive
the stock to -1.  This evaluates the model on that failing input. -/
theorem c6_stock_goes_negative :
    ∃ p, lookup "p1" storeAfterBothEvents.products = some p ∧ p.stock = some (-1) :=
  ⟨_, by with_unfolding_all rfl, by with_unfolding_all rfl⟩

/-- C7 counterexample: an entry submitting quantity 0 for an existing,
amply stocked product is dropped by the falsiness pre-check before the
product lookup - the Initiator answers empty-cart and creates nothing,
instead of retaining the entry with an effective quantity of 1. -/
theorem c7_counterexample_zero_quantity_dropped :
    (createCheckoutSession zeroQtyReq "o1" "s1" "url" 0 sampleStore).response
      = .emptyCart ∧
    (createCheckoutSession zeroQtyReq "o1" "s1" "url" 0 sampleStore).store
      = sampleStore ∧
    buildItems sampleStore [⟨"p1", 0, 999 / 100⟩] = .ok [] :=
  ⟨by with_unfolding_all rfl, by with_unfolding_all rfl, by with_unfolding_all rfl⟩

/-- C7 amended: an entry with a nonzero quantity whose id resolves is
retained with effective quantity `max 1 quantity` (negative quantities
clamp to 1); an entry with quantity zero is falsy and is dropped before
the product lookup, never clamped. -/
theorem c7_amended_clamp_nonzero (st : Store) :
    (∀ cart items e p, buildItems st cart = .ok items → e ∈ cart → e.id ≠ "" →
      e.quantity ≠ 0 → lookup e.id st.products = some p →
      ∃ it ∈ items, it.id = e.id ∧ it.quantity = max 1 e.quantity ∧
        (e.quantity < 0 → it.quantity = 1)) ∧
    (∀ e rest, e.quantity = 0 → buildItems st (e :: rest) = buildItems st rest) := by
  constructor
  · intro cart items e p hok he hid hq hp
    refine ⟨mkItem e p, buildItems_ok_mem st cart items hok e he hid hq p hp,
      rfl, rfl, ?_⟩
    intro hneg
    show max 1 e.quantity = 1
    exact max_eq_left (by omega)
  · intro e rest hq
    exact buildItems_skip st e rest (Or.inr (Or.inl hq))

/-- C7 witness: an entry with submitted quantity -3 is retained with
effective quantity 1. -/
theorem c7_witness :
    ∃ it ∈ [(⟨"p1", "Widget", 999, 1, none⟩ : Item)], it.id = "p1" ∧
      it.quantity = max 1 (-3) ∧ ((-3 : ℤ) < 0 → it.quantity = 1) :=
  (c7_amended_clamp_nonzero sampleStore).1 [⟨"p1", -3, 0⟩]
    [⟨"p1", "Widget", 999, 1, none⟩] ⟨"p1", -3, 0⟩ sampleProduct
    (by with_unfolding_all rfl) (List.mem_singleton_self _) (by decide) (by decide)
    (by with_unfolding_all rfl)

/-- C9: entries whose product id does not resolve are dropped silently
and an order is still created from the remaining valid entries; when no
entry survives (an empty cart, or only unknown ids) the Initiator
answers the empty-cart 400 with no order and no side effect. -/
theorem c9_unknown_dropped_or_empty (st : Store) :
    (∀ e cart, lookup e.id st.products = none →
      buildItems st (e :: cart) = buildItems st cart) ∧
    (∀ req cart u oid sid url now, req.method = "POST" → req.cart = some cart →
      req.user = some u → u.uid ≠ "" → u.email ≠ "" →
      buildItems st cart = .ok [] →
      createCheckoutSession req oid sid url now st = ⟨.emptyCart, st, []⟩) ∧
    (∀ req cart u oid sid url now items, req.method = "POST" →
      req.cart = some cart → req.user = some u → u.uid ≠ "" → u.email ≠ "" →
      buildItems st cart = .ok items → items ≠ [] →
      ∃ o, (createCheckoutSession req oid sid url now st).response = .ok url ∧
        (createCheckoutSession req oid sid url now st).store.orders
          = (oid, o) :: st.orders ∧
        o.items = items.map fun it =>
          ⟨it.id, it.name, it.quantity, (it.unit_amount : ℚ) / 100⟩) := by
  refine ⟨fun e cart hl => buildItems_skip st e cart (Or.inr (Or.inr hl)), ?_, ?_⟩
  · intro req cart u oid sid url now hm hc hu huid hemail hb
    exact createCheckoutSession_emptyCart req cart u oid sid url now st
      hm hc hu huid hemail hb
  · intro req cart u oid sid url now items hm hc hu huid hemail hb hni
    rw [createCheckoutSession_ok req cart u oid sid url now st items
      hm hc hu huid hemail hb hni]
    exact ⟨_, rfl, rfl, rfl⟩

/-- C9 witness: a cart with only an unknown id is rejected as empty with
no order; a cart mixing an unknown id with the example product still
creates an order holding exactly the resolved line. -/
theorem c9_witness :
    createCheckoutSession unknownOnlyReq "o1" "s1" "url" 0 sampleStore
      = ⟨.emptyCart, sampleStore, []⟩ ∧
    ∃ o, (createCheckoutSession mixedReq "o1" "s1" "url" 0 sampleStore).response
        = .ok "url" ∧
      (createCheckoutSession mixedReq "o1" "s1" "url" 0 sampleStore).store.orders
        = ("o1", o) :: sampleStore.orders ∧
      o.items = [⟨"p1", "Widget", 2, 999 / 100⟩] := by
  refine ⟨(c9_unknown_dropped_or_empty sampleStore).2.1 unknownOnlyReq
    [⟨"ghost", 1, 5⟩] sampleUser "o1" "s1" "url" 0 rfl rfl rfl (by decide)
    (by decide) (by with_unfolding_all rfl), ?_⟩
  obtain ⟨o, h1, h2, h3⟩ := (c9_unknown_dropped_or_empty sampleStore).2.2 mixedReq
    mixedCart sampleUser "o1" "s1" "url" 0 sampleItems rfl rfl rfl (by decide)
    (by decide) (by with_unfolding_all rfl) (List.cons_ne_nil _ _)
  refine ⟨o, h1, h2, ?_⟩
  rw [h3]
  with_unfolding_all rfl

/-- C10: a verified completion event matching an existing order that
omits amount fields defaults them to 0 and still commits: with both
amounts absent the order is persisted `paid` with total 0 and taxes 0;
with only `amount_total` absent the persisted taxes are the two-decimal
rounding of 0 minus the reported subtotal - a negative value for any
positive reported subtotal. -/
theorem c10_missing_amounts_default_zero
    (ev : StripeEvent) (oid : String) (order : Order) (now : ℕ) (st : Store)
    (hty : ev.type = "checkout.session.completed")
    (hmeta : ev.session.metadata_firebaseOrderId = some oid)
    (hoid : oid ≠ "")
    (hord : lookup oid st.orders = some order)
    (hall : ∀ it ∈ activeItems order.items,
      (lookup it.productId st.products).isSome) :
    (ev.session.amount_total = none → ev.session.amount_subtotal = none →
      lookup oid (stripeWebhook true ev now st).2.orders = some
        { order with
          status := .paid
          taxes := 0
          total := 0
          tps := 0
          tvq := 0
          stripePaymentIntentId := ev.session.payment_intent
          paidAt := some now }) ∧
    (∀ sAmt : ℤ, ev.session.amount_total = none →
      ev.session.amount_subtotal = some sAmt →
      ∃ o, lookup oid (stripeWebhook true ev now st).2.orders = some o ∧
        o.status = .paid ∧ o.total = 0 ∧
        o.taxes = round2 (0 - (sAmt : ℚ) / 100) ∧ (1 ≤ sAmt → o.taxes < 0)) := by
  have hrun := stripeWebhook_matched ev oid order now st hty hmeta hoid hord hall
  have hlook : lookup oid (stripeWebhook true ev now st).2.orders
      = some (reconciledOrder ev.session now order) := by
    rw [hrun]
    show lookup oid (updateAssoc oid (reconciledOrder ev.session now) st.orders) = _
    rw [lookup_updateAssoc_self, hord]
    rfl
  have h0 : round2 0 = 0 := by with_unfolding_all rfl
  have hneg : ∀ sAmt : ℤ, 1 ≤ sAmt → round2 (0 - (sAmt : ℚ) / 100) < 0 := by
    intro sAmt hs1
    have heq : round2 (0 - (sAmt : ℚ) / 100) = ((-sAmt : ℤ) : ℚ) / 100 := by
      rw [round2, jsRound_eq_floor]
      have harg : (0 - (sAmt : ℚ) / 100 + jsEpsilon) * 100 + 1 / 2
          = ((-sAmt : ℤ) : ℚ) + (jsEpsilon * 100 + 1 / 2) := by
        push_cast
        ring
      rw [harg, Int.floor_int_add]
      have hz : ⌊jsEpsilon * 100 + (1 : ℚ) / 2⌋ = 0 := by
        rw [Int.floor_eq_zero_iff, Set.mem_Ico]
        constructor
        · rw [jsEpsilon]
          norm_num
        · rw [jsEpsilon]
          norm_num
      rw [hz, add_zero]
    rw [heq]
    have hpos : (0 : ℚ) < (sAmt : ℚ) := by exact_mod_cast hs1.trans_lt' (by norm_num)
    push_cast
    linarith
  constructor
  · intro ht hs
    rw [hlook]
    simp only [reconciledOrder, ht, hs, Option.getD_none, Int.cast_zero, zero_div,
      sub_zero, h0]
  · intro sAmt ht hs
    refine ⟨reconciledOrder ev.session now order, hlook, rfl, ?_, ?_, ?_⟩
    · show ((ev.session.amount_total.getD 0 : ℤ) : ℚ) / 100 = 0
      rw [ht]
      simp
    · show round2 (((ev.session.amount_total.getD 0 : ℤ) : ℚ) / 100
        - ((ev.session.amount_subtotal.getD 0 : ℤ) : ℚ) / 100) = _
      rw [ht, hs]
      simp only [Option.getD_none, Option.getD_some, Int.cast_zero, zero_div]
    · intro hs1
      have : (reconciledOrder ev.session now order).taxes
          = round2 (0 - (sAmt : ℚ) / 100) := by
        show round2 (((ev.session.amount_total.getD 0 : ℤ) : ℚ) / 100
          - ((ev.session.amount_subtotal.getD 0 : ℤ) : ℚ) / 100) = _
        rw [ht, hs]
        simp only [Option.getD_none, Option.getD_some, Int.cast_zero, zero_div]
      rw [this]
      exact hneg sAmt hs1

/-- C10 witness: on the example pending order, an event with both
amounts missing persists the order paid with total 0 and taxes 0, and an
event missing only the total (reported subtotal 1998) persists taxes
round2(0 - 19.98), which is negative. -/
theorem c10_witness :
    (∃ o, lookup "o1" (stripeWebhook true missingAmountsEvent 9
        sampleCheckout.store).2.orders = some o ∧ o.status = .paid ∧
      o.total = 0 ∧ o.taxes = 0) ∧
    ∃ o, lookup "o1" (stripeWebhook true missingTotalEvent 9
        sampleCheckout.store).2.orders = some o ∧ o.status = .paid ∧
      o.taxes = round2 (0 - (1998 : ℚ) / 100) ∧ o.taxes < 0 := by
  have hacts : activeItems sampleOrder.items = [⟨"p1", "Widget", 2, 999 / 100⟩] := by
    with_unfolding_all rfl
  have hall : ∀ it ∈ activeItems sampleOrder.items,
      (lookup it.productId sampleCheckout.store.products).isSome := by
    rw [hacts]
    intro it hit
    rw [List.mem_singleton] at hit
    subst hit
    rw [show lookup "p1" sampleCheckout.store.products = some sampleProduct from by
      with_unfolding_all rfl]
    rfl
  have h1 := (c10_missing_amounts_default_zero missingAmountsEvent "o1" sampleOrder 9
    sampleCheckout.store rfl rfl (by decide) (by with_unfolding_all rfl) hall).1
    rfl rfl
  have h2 := (c10_missing_amounts_default_zero missingTotalEvent "o1" sampleOrder 9
    sampleCheckout.store rfl rfl (by decide) (by with_unfolding_all rfl) hall).2
    1998 rfl rfl
  obtain ⟨o, ho, hst, htot, htax, hneg⟩ := h2
  exact ⟨⟨_, h1, rfl, rfl, rfl⟩, o, ho, hst, htax, hneg (by norm_num)⟩
